import Mathlib

/-!
# Verification of the TimeArtifacts event/state core

Shallow embedding of `src/backend/src/core/EventManager.{h,cpp}` and
`src/backend/src/core/StateManager.{h,cpp}` (with `GameState.h`), together
with theorems settling the specification claims about them.

Modelling conventions:
* `std::unique_ptr<Event>` arguments that may be null are `Option Event`;
  events stored in the queue are non-null (both `publish` and `publishBatch`
  refuse null events), so the queue is a `List Event` with the front of the
  `std::queue` at the head.  The unused `immediate` flag of `QueuedEvent` is
  dropped.
* `std::map` registries are association lists with unique keys (the
  `std::map` representation invariant); lookup/insert/erase helpers mirror
  map semantics on the first matching key.
* Subscriber callbacks are arbitrary user code; their only observable
  interaction with the manager modelled here is *that* they are invoked, so
  dispatching returns the ordered list of invoked subscribers (the dispatch
  trace) alongside the updated manager.  Exceptions thrown by callbacks are
  caught and logged in the source and do not alter manager state, so they
  are invisible in the model.
* Machine integers (`int` counters, queue bounds) are modelled as `Int`
  where signedness matters (`maxEvents`, `maxQueueSize`) and `Nat` where the
  source value is a container size.
-/

namespace TimeArtifacts

/-- Base `Event` of `Events.h`: only the dispatch key (`getType()`) and the
priority metadata are observable to the manager code under verification. -/
structure Event where
  type : String
  priority : Int := 0
  deriving Repr, DecidableEq

/-- `Subscriber` of `EventManager.h`: callback identity is represented by the
subscriber id; `priority` (smaller = earlier) and the `active` flag as in the
source. -/
structure Subscriber where
  subscriberId : String
  priority : Int
  active : Bool
  deriving Repr, DecidableEq

/-- Association-list lookup mirroring `std::map::find` on the subscriber
registry (`std::map<std::string, std::vector<std::shared_ptr<Subscriber>>>`). -/
def lookupSubs : List (String × List Subscriber) → String → Option (List Subscriber)
  | [], _ => none
  | (k, v) :: rest, t => if k = t then some v else lookupSubs rest t

/-- Replace the value stored under a key, inserting it if absent
(`std::map::operator[]` followed by assignment). -/
def setSubs : List (String × List Subscriber) → String → List Subscriber →
    List (String × List Subscriber)
  | [], t, v => [(t, v)]
  | (k, w) :: rest, t, v =>
      if k = t then (t, v) :: rest else (k, w) :: setSubs rest t v

/-- Erase a key's entry (`std::map::erase`). -/
def eraseSubs : List (String × List Subscriber) → String →
    List (String × List Subscriber)
  | [], _ => []
  | (k, w) :: rest, t => if k = t then rest else (k, w) :: eraseSubs rest t

/-- Lookup in the per-type statistics map `eventCounts`, defaulting to 0 for
an absent key (absent type = never counted). -/
def lookupCount : List (String × Nat) → String → Nat
  | [], _ => 0
  | (k, v) :: rest, t => if k = t then v else lookupCount rest t

/-- `eventCounts[event->getType()]++`: `std::map::operator[]`
default-constructs a zero entry when absent, then the count is incremented. -/
def bumpCount : List (String × Nat) → String → List (String × Nat)
  | [], t => [(t, 1)]
  | (k, v) :: rest, t =>
      if k = t then (k, v + 1) :: rest else (k, v) :: bumpCount rest t

/-- State of an `EventManager` (fields of `EventManager.h`).  `debugMode`
only toggles logging and is dropped. -/
structure EventManager where
  subscribers : List (String × List Subscriber)
  eventQueue : List Event
  eventCounts : List (String × Nat)
  eventFilters : List String
  processingEvents : Bool
  maxQueueSize : Int
  deriving Repr

/-- `EventManager::passesFilter`: an empty allow-list passes everything,
otherwise the type must be listed. -/
def passesFilter (em : EventManager) (eventType : String) : Bool :=
  em.eventFilters.isEmpty || em.eventFilters.contains eventType

/-- `EventManager::dispatchEvent`: check the filter, copy the subscriber
list for the type, then invoke each *active* subscriber's callback in list
order.  The result is the dispatch trace: the subscribers invoked, in
invocation order.  (A callback that throws is caught and logged; delivery
continues, so the trace is unaffected.) -/
def dispatchEvent (em : EventManager) (e : Event) : List Subscriber :=
  if passesFilter em e.type then
    match lookupSubs em.subscribers e.type with
    | none => []
    | some subs => subs.filter (fun s => s.active)
  else []

/-- `EventManager::publishImmediate`: null event is a logged no-op;
otherwise the per-type statistics counter is incremented and the event is
dispatched immediately.  Returns the new state and the dispatch trace. -/
def publishImmediate (em : EventManager) (event : Option Event) :
    EventManager × List Subscriber :=
  match event with
  | none => (em, [])
  | some e =>
      let em' := { em with eventCounts := bumpCount em.eventCounts e.type }
      (em', dispatchEvent em' e)

/-- `EventManager::publish`: null event is a logged no-op; if
`(int)eventQueue.size() >= maxQueueSize` the event is dropped (logged),
otherwise it is appended at the tail of the queue. -/
def publish (em : EventManager) (event : Option Event) : EventManager :=
  match event with
  | none => em
  | some e =>
      if (em.eventQueue.length : Int) ≥ em.maxQueueSize then em
      else { em with eventQueue := em.eventQueue ++ [e] }

/-- Loop body of `EventManager::processEvents`: while
`processedCount != maxEvents`, pop the front event, bump its statistics
counter, dispatch it, and increment `processedCount`; exit early when the
queue is empty.  Both counters are C++ `int`s, so the guard compares them
as integers.  Returns final state, `processedCount`, and the concatenated
dispatch trace. -/
def processLoop (em : EventManager) (maxEvents : Int) (processedCount : Nat) :
    EventManager × Nat × List Subscriber :=
  if (processedCount : Int) = maxEvents then (em, processedCount, [])
  else
    match h : em.eventQueue with
    | [] => (em, processedCount, [])
    | e :: rest =>
        let em' := { em with eventQueue := rest,
                             eventCounts := bumpCount em.eventCounts e.type }
        let tr := dispatchEvent em' e
        let res := processLoop em' maxEvents (processedCount + 1)
        (res.1, res.2.1, tr ++ res.2.2)
termination_by em.eventQueue.length
decreasing_by simp [h]

/-- `EventManager::processEvents`: the re-entrancy guard returns 0 at once
when `processingEvents` is already set; otherwise the flag is raised, the
processing loop runs, and the flag is cleared.  Returns the new state, the
number of events processed, and the dispatch trace. -/
def processEvents (em : EventManager) (maxEvents : Int) :
    EventManager × Nat × List Subscriber :=
  if em.processingEvents then (em, 0, [])
  else
    let res := processLoop { em with processingEvents := true } maxEvents 0
    ({ res.1 with processingEvents := false }, res.2.1, res.2.2)

/-- `EventManager::unsubscribe`: no entry for the type means `false`;
otherwise every subscriber with the id is removed (`std::remove_if` +
`erase`), the return value records whether any was removed, and the type's
entry is erased entirely when its list becomes empty. -/
def unsubscribe (em : EventManager) (eventType subscriberId : String) :
    EventManager × Bool :=
  match lookupSubs em.subscribers eventType with
  | none => (em, false)
  | some subs =>
      let remaining := subs.filter (fun s => ¬ s.subscriberId = subscriberId)
      let removed := subs.any (fun s => s.subscriberId = subscriberId)
      let subscribers' :=
        if remaining.isEmpty then eraseSubs em.subscribers eventType
        else setSubs em.subscribers eventType remaining
      ({ em with subscribers := subscribers' }, removed)

/-- `EventManager::setSubscriberActive`: sets the `active` flag of every
subscriber carrying the id, across all event types. -/
def setSubscriberActive (em : EventManager) (subscriberId : String)
    (active : Bool) : EventManager :=
  { em with subscribers := em.subscribers.map (fun p =>
      (p.1, p.2.map (fun s =>
        if s.subscriberId = subscriberId then { s with active := active }
        else s))) }

/-- `EventManager::getSubscriberCount`: empty type string totals the
registered subscribers over every type; otherwise the size of that type's
list, 0 when the type has no entry. -/
def getSubscriberCount (em : EventManager) (eventType : String) : Nat :=
  if eventType = "" then
    (em.subscribers.map (fun p => p.2.length)).sum
  else
    match lookupSubs em.subscribers eventType with
    | some subs => subs.length
    | none => 0

/-- `EventManager::getQueueSize`. -/
def getQueueSize (em : EventManager) : Nat :=
  em.eventQueue.length

/-- Per-type view of `EventManager::getEventStatistics` (the source returns
the whole `eventCounts` map; this reads one entry of that map). -/
def statCount (em : EventManager) (eventType : String) : Nat :=
  lookupCount em.eventCounts eventType

/-- `std::map` representation invariant of the subscriber registry: keys are
unique. -/
def keysNodup (em : EventManager) : Prop :=
  (em.subscribers.map Prod.fst).Nodup

instance (em : EventManager) : Decidable (keysNodup em) := by
  unfold keysNodup
  infer_instance

/-- `EventManager::sortSubscribersByPriority` calls `std::sort` with the
strict comparator `a->priority < b->priority`.  `std::sort` guarantees only
that the output is *some* permutation of the input that is sorted for the
comparator — it is **not** stable — so the call is modelled by its contract:
the relation between the vector before and after the call. -/
def SortContract (input output : List Subscriber) : Prop :=
  output.Perm input ∧ output.Pairwise (fun a b => a.priority ≤ b.priority)

instance (input output : List Subscriber) : Decidable (SortContract input output) := by
  unfold SortContract
  exact instDecidableAnd

/-- The replace-or-append step of `EventManager::subscribe` that runs under
the lock *before* `sortSubscribersByPriority`: a subscriber whose id is
already present replaces that entry in place, otherwise it is appended
(`push_back`). -/
def subscribeStep (subs : List Subscriber) (s : Subscriber) : List Subscriber :=
  if subs.any (fun x => x.subscriberId = s.subscriberId) then
    subs.map (fun x => if x.subscriberId = s.subscriberId then s else x)
  else subs ++ [s]

/-- Relation describing one complete `EventManager::subscribe` update of a
type's subscriber list: the replace-or-append step followed by the
`std::sort` contract. -/
def SubscribeResult (subs : List Subscriber) (s : Subscriber)
    (out : List Subscriber) : Prop :=
  SortContract (subscribeStep subs s) out

instance (subs : List Subscriber) (s : Subscriber) (out : List Subscriber) :
    Decidable (SubscribeResult subs s out) := by
  unfold SubscribeResult
  infer_instance

/-!
## StateManager (`StateManager.{h,cpp}`, `GameState.h`)

A concrete `GameState` is observable to the manager through `getName()`,
`canTransition()` (a `const` query, modelled as a stored answer) and
`getNextState()` (the auto-transition request its `update` leaves behind,
modelled as an optional stored successor).  `enter()`/`exit()` calls are
the interesting side effects; each manager operation therefore returns the
ordered list of lifecycle calls it made. -/

/-- A concrete `GameState`, as visible to `StateManager`. -/
inductive GameState where
  | mk (name : String) (canTransitionFlag : Bool) (nextAuto : Option GameState)

/-- `GameState::getName()`. -/
def GameState.name : GameState → String
  | .mk n _ _ => n

/-- `GameState::canTransition()` (a concrete state's stored answer). -/
def GameState.canTransitionFlag : GameState → Bool
  | .mk _ c _ => c

/-- `GameState::getNextState()` (the auto-transition a state requests after
its `update`, `none` by default). -/
def GameState.nextAuto : GameState → Option GameState
  | .mk _ _ a => a

/-- A lifecycle call made by the manager on a state, recorded by name. -/
inductive LifeEvent where
  | enter (name : String)
  | exit (name : String)
  deriving Repr, DecidableEq

/-- State of a `StateManager` (fields of `StateManager.h`); the stack's top
is at the head of the list. -/
structure StateManager where
  currentState : Option GameState
  nextState : Option GameState
  stateStack : List GameState
  shouldChangeState : Bool
  shouldPushState : Bool
  shouldPopState : Bool
  lastStateName : String

/-- `StateManager::getCurrentStateName`. -/
def getCurrentStateName (sm : StateManager) : String :=
  match sm.currentState with
  | some c => c.name
  | none => "None"

/-- `StateManager::getStateStackDepth`. -/
def getStateStackDepth (sm : StateManager) : Nat :=
  sm.stateStack.length

/-- `StateManager::setInitialState`: warned no-op when a current state
exists or the argument is null; otherwise the state becomes current and its
`enter()` runs immediately. -/
def setInitialState (sm : StateManager) (s : Option GameState) :
    StateManager × List LifeEvent :=
  match sm.currentState with
  | some _ => (sm, [])
  | none =>
      match s with
      | none => (sm, [])
      | some st =>
          ({ sm with currentState := some st, lastStateName := st.name },
           [.enter st.name])

/-- `StateManager::changeState`: null argument is a logged no-op; a current
state whose `canTransition()` is false rejects the request; otherwise the
state is stored in `nextState` and the deferred-change flag is raised. -/
def changeState (sm : StateManager) (s : Option GameState) : StateManager :=
  match s with
  | none => sm
  | some st =>
      if sm.currentState.any (fun c => !c.canTransitionFlag) then sm
      else { sm with nextState := some st, shouldChangeState := true }

/-- `StateManager::pushState`: null argument is a logged no-op; otherwise
the overlay is stored in `nextState` and the deferred-push flag is raised. -/
def pushState (sm : StateManager) (s : Option GameState) : StateManager :=
  match s with
  | none => sm
  | some st => { sm with nextState := some st, shouldPushState := true }

/-- `StateManager::popState`: warned no-op on an empty stack; otherwise the
deferred-pop flag is raised. -/
def popState (sm : StateManager) : StateManager :=
  if sm.stateStack.isEmpty then sm
  else { sm with shouldPopState := true }

/-- `StateManager::cleanupCurrentState`: exits and releases the current
state when there is one (an exception from `exit()` is caught and logged). -/
def cleanupCurrentState (sm : StateManager) : StateManager × List LifeEvent :=
  match sm.currentState with
  | none => (sm, [])
  | some c => ({ sm with currentState := none }, [.exit c.name])

/-- `StateManager::performStateChange`: logged no-op without a pending
state; otherwise the current state is exited and released, the pending
state becomes current (moved out of `nextState`), and its `enter()` runs. -/
def performStateChange (sm : StateManager) : StateManager × List LifeEvent :=
  match sm.nextState with
  | none => (sm, [])
  | some st =>
      let res := cleanupCurrentState sm
      ({ res.1 with currentState := some st, nextState := none,
                    lastStateName := st.name },
       res.2 ++ [.enter st.name])

/-- `StateManager::performStatePush`: logged no-op without a pending state;
otherwise the current state (if any) is pushed onto the stack *without*
`exit()`, then the pending state becomes current and its `enter()` runs. -/
def performStatePush (sm : StateManager) : StateManager × List LifeEvent :=
  match sm.nextState with
  | none => (sm, [])
  | some st =>
      let sm1 :=
        match sm.currentState with
        | some c => { sm with stateStack := c :: sm.stateStack,
                              currentState := none }
        | none => sm
      ({ sm1 with currentState := some st, nextState := none,
                  lastStateName := st.name },
       [.enter st.name])

/-- `StateManager::performStatePop`: logged no-op on an empty stack;
otherwise the current state is exited and released and the stack top
becomes current again — deliberately without calling `enter()`. -/
def performStatePop (sm : StateManager) : StateManager × List LifeEvent :=
  match sm.stateStack with
  | [] => (sm, [])
  | top :: rest =>
      let res := cleanupCurrentState sm
      ({ res.1 with currentState := some top, stateStack := rest,
                    lastStateName := top.name },
       res.2)

/-- `StateManager::update`: apply each raised deferred operation (change,
then push, then pop), clearing its flag afterwards; then run the current
state's `update` (its effect on the manager is only the auto-transition it
may request through `getNextState()`, which is routed through
`changeState`; exceptions are caught and logged).  `deltaTime` does not
influence the manager itself and is omitted. -/
def update (sm : StateManager) : StateManager × List LifeEvent :=
  let r1 :=
    if sm.shouldChangeState then
      let res := performStateChange sm
      ({ res.1 with shouldChangeState := false }, res.2)
    else (sm, ([] : List LifeEvent))
  let r2 :=
    if r1.1.shouldPushState then
      let res := performStatePush r1.1
      ({ res.1 with shouldPushState := false }, res.2)
    else (r1.1, [])
  let r3 :=
    if r2.1.shouldPopState then
      let res := performStatePop r2.1
      ({ res.1 with shouldPopState := false }, res.2)
    else (r2.1, [])
  let sm4 :=
    match r3.1.currentState with
    | none => r3.1
    | some c =>
        match c.nextAuto with
        | none => r3.1
        | some na => changeState r3.1 (some na)
  (sm4, r1.2 ++ r2.2 ++ r3.2)

/-!
## Helper lemmas about the association-list operations
-/

theorem lookupCount_bumpCount_self (c : List (String × Nat)) (t : String) :
    lookupCount (bumpCount c t) t = lookupCount c t + 1 := by
  induction c with
  | nil => simp [bumpCount, lookupCount]
  | cons p rest ih =>
      obtain ⟨k, v⟩ := p
      by_cases hk : k = t
      · simp [bumpCount, lookupCount, hk]
      · simp [bumpCount, lookupCount, hk, ih]

theorem lookupCount_bumpCount_ne (c : List (String × Nat)) (t s : String)
    (h : s ≠ t) : lookupCount (bumpCount c t) s = lookupCount c s := by
  induction c with
  | nil => simp [bumpCount, lookupCount, Ne.symm h]
  | cons p rest ih =>
      obtain ⟨k, v⟩ := p
      by_cases hk : k = t
      · subst hk
        simp [bumpCount, lookupCount, Ne.symm h]
      · simp [bumpCount, lookupCount, hk, ih]

theorem lookupSubs_setSubs_self (m : List (String × List Subscriber))
    (t : String) (v : List Subscriber) :
    lookupSubs (setSubs m t v) t = some v := by
  induction m with
  | nil => simp [setSubs, lookupSubs]
  | cons p rest ih =>
      obtain ⟨k, w⟩ := p
      by_cases hk : k = t
      · simp [setSubs, lookupSubs, hk]
      · simp [setSubs, lookupSubs, hk, ih]

theorem lookupSubs_eraseSubs_self (m : List (String × List Subscriber))
    (t : String) (hnd : (m.map Prod.fst).Nodup) :
    lookupSubs (eraseSubs m t) t = none := by
  induction m with
  | nil => simp [eraseSubs, lookupSubs]
  | cons p rest ih =>
      obtain ⟨k, w⟩ := p
      simp only [List.map_cons, List.nodup_cons] at hnd
      by_cases hk : k = t
      · subst hk
        simp only [eraseSubs, if_pos rfl]
        -- k no longer occurs as a key in rest, so the lookup fails
        clear ih
        induction rest with
        | nil => simp [lookupSubs]
        | cons q rest' ih' =>
            obtain ⟨k', w'⟩ := q
            simp only [List.map_cons, List.mem_cons, List.nodup_cons] at hnd
            have hk' : k' ≠ k := fun h => hnd.1 (Or.inl h.symm)
            simp only [lookupSubs, if_neg hk']
            exact ih' ⟨fun h => hnd.1 (Or.inr h), hnd.2.2⟩
      · simp only [eraseSubs, if_neg hk, lookupSubs, if_neg hk]
        exact ih hnd.2

theorem lookupSubs_of_mem_nodup (m : List (String × List Subscriber))
    (k : String) (v : List Subscriber)
    (hnd : (m.map Prod.fst).Nodup) (hm : (k, v) ∈ m) :
    lookupSubs m k = some v := by
  induction m with
  | nil => simp at hm
  | cons p rest ih =>
      obtain ⟨k', w⟩ := p
      simp only [List.map_cons, List.nodup_cons] at hnd
      rcases List.mem_cons.mp hm with h | h
      · obtain ⟨hk, hv⟩ := Prod.mk.injEq .. ▸ h
        simp [lookupSubs, ← hk, ← hv]
      · have hk' : k' ≠ k := by
          rintro rfl
          exact hnd.1 (List.mem_map.mpr ⟨(k', v), h, rfl⟩)
        simp only [lookupSubs, if_neg hk']
        exact ih hnd.2 h

theorem lookupSubs_map_val (g : List Subscriber → List Subscriber)
    (m : List (String × List Subscriber)) (t : String) :
    lookupSubs (m.map (fun p => (p.1, g p.2))) t = (lookupSubs m t).map g := by
  induction m with
  | nil => simp [lookupSubs]
  | cons p rest ih =>
      obtain ⟨k, w⟩ := p
      by_cases hk : k = t
      · simp [lookupSubs, hk]
      · simp [lookupSubs, hk, ih]

/-!
## Unfolding equations for the `processEvents` loop
-/

theorem processLoop_stop (em : EventManager) (maxEvents : Int)
    (processedCount : Nat) (h : (processedCount : Int) = maxEvents) :
    processLoop em maxEvents processedCount = (em, processedCount, []) := by
  rw [processLoop]
  simp [h]

theorem processLoop_nil (em : EventManager) (maxEvents : Int)
    (processedCount : Nat) (h : ¬ (processedCount : Int) = maxEvents)
    (hq : em.eventQueue = []) :
    processLoop em maxEvents processedCount = (em, processedCount, []) := by
  rw [processLoop]
  simp only [if_neg h]
  split
  · rfl
  · simp_all

theorem processLoop_cons (em : EventManager) (maxEvents : Int)
    (processedCount : Nat) (e : Event) (rest : List Event)
    (h : ¬ (processedCount : Int) = maxEvents)
    (hq : em.eventQueue = e :: rest) :
    processLoop em maxEvents processedCount =
      (let em' := { em with eventQueue := rest,
                            eventCounts := bumpCount em.eventCounts e.type }
       let tr := dispatchEvent em' e
       let res := processLoop em' maxEvents (processedCount + 1)
       (res.1, res.2.1, tr ++ res.2.2)) := by
  rw [processLoop]
  simp only [if_neg h]
  split
  · simp_all
  · rename_i e' rest' hq'
    rw [hq] at hq'
    obtain ⟨rfl, rfl⟩ := List.cons.injEq .. ▸ hq'
    rfl

/-- For a negative target, the loop guard `processedCount != maxEvents` can
never stop the loop (the count starts at 0 and only grows), so the loop runs
until the queue is empty, having processed one event per queue element. -/
theorem processLoop_neg_drains (maxEvents : Int) (hm : maxEvents < 0)
    (q : List Event) : ∀ (em : EventManager) (c : Nat), em.eventQueue = q →
    (processLoop em maxEvents c).1.eventQueue = [] ∧
    (processLoop em maxEvents c).2.1 = c + q.length := by
  induction q with
  | nil =>
      intro em c hq
      have hne : ¬ (c : Int) = maxEvents := by
        intro h
        omega
      rw [processLoop_nil em maxEvents c hne hq]
      simp [hq]
  | cons e rest ih =>
      intro em c hq
      have hne : ¬ (c : Int) = maxEvents := by
        intro h
        omega
      rw [processLoop_cons em maxEvents c e rest hne hq]
      have := ih { em with eventQueue := rest,
                           eventCounts := bumpCount em.eventCounts e.type }
                 (c + 1) rfl
      simp only [List.length_cons]
      exact ⟨this.1, by rw [this.2]; omega⟩

/-!
## Concrete fixtures

Events and manager states used to evaluate the operations on concrete
inputs (Scenario D of the spec and the witnesses below). -/

def evA : Event := { type := "A" }

def evB : Event := { type := "B" }

def evC : Event := { type := "C" }

/-- A freshly constructed manager with queue capacity 2 (`EventManager(2)`)
and no subscribers. -/
def emCap2 : EventManager :=
  { subscribers := [], eventQueue := [], eventCounts := [],
    eventFilters := [], processingEvents := false, maxQueueSize := 2 }

/-- Scenario D of the spec: capacity 2, three events published — the third
is dropped by backpressure, leaving two queued events. -/
def emScenarioD : EventManager :=
  publish (publish (publish emCap2 (some evA)) (some evB)) (some evC)

/-- A manager with one queued event and room for one more. -/
def emRoom : EventManager :=
  publish emCap2 (some evA)

/-- A manager observed in the middle of a `processEvents` call: the
re-entrancy guard flag is set. -/
def emBusy : EventManager :=
  { emScenarioD with processingEvents := true }

/-!
## Claim theorems
-/

/-- C4: publishing a non-null event onto a queue whose size has reached the
configured capacity drops it, leaving the queue (and hence its size)
unchanged; below capacity the event is appended at the tail; and a queue
within capacity never grows beyond capacity.  (`publish` is a total
function of the current state — it never blocks.) -/
theorem publish_backpressure (em : EventManager) (e : Event) :
    ((em.eventQueue.length : Int) ≥ em.maxQueueSize →
      publish em (some e) = em) ∧
    ((em.eventQueue.length : Int) < em.maxQueueSize →
      (publish em (some e)).eventQueue = em.eventQueue ++ [e]) ∧
    ((em.eventQueue.length : Int) ≤ em.maxQueueSize →
      ((publish em (some e)).eventQueue.length : Int) ≤ em.maxQueueSize) := by
  refine ⟨?_, ?_, ?_⟩
  · intro h
    simp only [publish, if_pos h]
  · intro h
    simp only [publish, if_neg (not_le.mpr h)]
  · intro h
    by_cases hge : (em.eventQueue.length : Int) ≥ em.maxQueueSize
    · simp only [publish, if_pos hge]
      exact h
    · simp only [publish, if_neg hge]
      simp only [List.length_append, List.length_cons, List.length_nil]
      push_cast
      omega

/-- Witness for C4 on Scenario D's manager: with the queue at capacity
(2 events, capacity 2) the publish is dropped; with room it appends. -/
theorem publish_backpressure_witness :
    publish emScenarioD (some evC) = emScenarioD ∧
    (publish emRoom (some evB)).eventQueue = emRoom.eventQueue ++ [evB] ∧
    ((publish emScenarioD (some evC)).eventQueue.length : Int) ≤
      emScenarioD.maxQueueSize :=
  ⟨(publish_backpressure emScenarioD evC).1 (by decide),
   (publish_backpressure emRoom evB).2.1 (by decide),
   (publish_backpressure emScenarioD evC).2.2 (by decide)⟩

/-- C5: when `processingEvents` is already set — as it is for the whole
dispatching phase of an outer `processEvents` call, so in particular for a
re-entrant call issued from inside a subscriber callback — `processEvents`
returns 0, dequeues nothing, dispatches nothing, and leaves the manager
unchanged; hence no queued event can be dispatched twice. -/
theorem processEvents_reentrant (em : EventManager) (maxEvents : Int)
    (h : em.processingEvents = true) :
    processEvents em maxEvents = (em, 0, []) := by
  simp [processEvents, h]

/-- Witness for C5: a nested call on the mid-processing Scenario D manager
returns 0 and changes nothing. -/
theorem processEvents_reentrant_witness :
    processEvents emBusy 0 = (emBusy, 0, []) :=
  processEvents_reentrant emBusy 0 rfl

/-- C9: for every negative `maxEvents`, `processEvents` drains the entire
queue — the loop guard `processedCount != maxEvents` cannot become false
for a negative target — and returns the number of events dispatched (one
per queue element). -/
theorem processEvents_negative_drains (em : EventManager) (maxEvents : Int)
    (hm : maxEvents < 0) (hflag : em.processingEvents = false) :
    (processEvents em maxEvents).1.eventQueue = [] ∧
    (processEvents em maxEvents).2.1 = em.eventQueue.length := by
  have hloop := processLoop_neg_drains maxEvents hm em.eventQueue
      { em with processingEvents := true } 0 rfl
  rw [processEvents, if_neg (by simp [hflag])]
  exact ⟨hloop.1, by rw [hloop.2]; exact Nat.zero_add _⟩

/-- Witness for C9: `processEvents(-1)` on Scenario D's manager dispatches
both queued events and empties the queue. -/
theorem processEvents_negative_drains_witness :
    (processEvents emScenarioD (-1)).1.eventQueue = [] ∧
    (processEvents emScenarioD (-1)).2.1 = emScenarioD.eventQueue.length :=
  processEvents_negative_drains emScenarioD (-1) (by decide) rfl

/-- C1 (bug evidence): in Scenario D two events are pending, but
`processEvents` with the default argument `maxEvents = 0` processes
*nothing*: the loop guard `processedCount != maxEvents` is false on entry
(`0 != 0`), so the call returns 0 and leaves both events queued — against
the documented meaning of 0 as "no limit" and the spec's expected return
value of 2. -/
theorem processEvents_default_noop_scenarioD :
    getQueueSize emScenarioD = 2 ∧
    processEvents emScenarioD 0 = (emScenarioD, 0, []) := by
  constructor
  · rfl
  · simp only [processEvents]
    rw [if_neg (by decide : ¬ emScenarioD.processingEvents = true)]
    rw [processLoop_stop _ 0 0 (by decide)]
    rfl

/-- Unfolding equation for `unsubscribe` when the type has no entry. -/
theorem unsubscribe_none (em : EventManager) (t id : String)
    (hl : lookupSubs em.subscribers t = none) :
    unsubscribe em t id = (em, false) := by
  unfold unsubscribe
  rw [hl]

/-- Unfolding equation for `unsubscribe` when the type has an entry. -/
theorem unsubscribe_found (em : EventManager) (t id : String)
    (subs : List Subscriber) (hl : lookupSubs em.subscribers t = some subs) :
    unsubscribe em t id =
      ({ em with subscribers :=
          (if (subs.filter (fun s => ¬ s.subscriberId = id)).isEmpty then
            eraseSubs em.subscribers t
          else setSubs em.subscribers t
            (subs.filter (fun s => ¬ s.subscriberId = id))) },
       subs.any (fun s => s.subscriberId = id)) := by
  unfold unsubscribe
  rw [hl]

/-- A non-empty allow-list that excludes the event's type makes
`dispatchEvent` drop the event before reaching any subscriber. -/
theorem dispatchEvent_filtered (em : EventManager) (e : Event)
    (h1 : em.eventFilters ≠ []) (h2 : e.type ∉ em.eventFilters) :
    dispatchEvent em e = [] := by
  have hpf : ¬ passesFilter em e.type = true := by
    simp [passesFilter, h1, h2]
  rw [dispatchEvent, if_neg hpf]

/-- C3: each event published through `publishImmediate` or dequeued by
`processEvents` bumps its type's statistics counter exactly once (other
types untouched), the bump happens before the filter check, so an event
excluded by a non-empty allow-list still counts while being delivered to no
subscriber; and nothing here constrains `em.subscribers`, so the count is
the same however many subscribers the event reached. -/
theorem statistics_before_filter (em : EventManager) (e : Event)
    (rest : List Event) (t : String)
    (hflag : em.processingEvents = false) (hq : em.eventQueue = e :: rest)
    (ht : t ≠ e.type) :
    statCount (publishImmediate em (some e)).1 e.type =
      statCount em e.type + 1 ∧
    statCount (publishImmediate em (some e)).1 t = statCount em t ∧
    (em.eventFilters ≠ [] → e.type ∉ em.eventFilters →
      (publishImmediate em (some e)).2 = []) ∧
    statCount (processEvents em 1).1 e.type = statCount em e.type + 1 ∧
    (em.eventFilters ≠ [] → e.type ∉ em.eventFilters →
      (processEvents em 1).2.2 = []) := by
  have key : processEvents em 1 =
      ({ em with eventQueue := rest,
                 eventCounts := bumpCount em.eventCounts e.type,
                 processingEvents := false },
       1,
       dispatchEvent { em with eventQueue := rest,
                               eventCounts := bumpCount em.eventCounts e.type,
                               processingEvents := true } e ++ []) := by
    rw [processEvents, if_neg (by simp [hflag])]
    rw [processLoop_cons _ 1 0 e rest (by decide) (by simpa using hq)]
    simp only [Nat.zero_add, processLoop_stop _ 1 1 (by decide)]
  refine ⟨?_, ?_, ?_, ?_, ?_⟩
  · simp [publishImmediate, statCount, lookupCount_bumpCount_self]
  · simp [publishImmediate, statCount, lookupCount_bumpCount_ne _ _ _ ht]
  · intro h1 h2
    simp only [publishImmediate]
    exact dispatchEvent_filtered _ e h1 h2
  · rw [key]
    simp [statCount, lookupCount_bumpCount_self]
  · intro h1 h2
    rw [key]
    simp only [List.append_nil]
    exact dispatchEvent_filtered _ e h1 h2

/-- Witness for C3: on Scenario D's manager (queue `[A, B]`, no filter) the
counters move as claimed; a variant with allow-list `["B"]` shows the
filtered event `A` still counted but delivered nowhere. -/
theorem statistics_before_filter_witness :
    statCount (publishImmediate emScenarioD (some evA)).1 "A" =
      statCount emScenarioD "A" + 1 ∧
    statCount (publishImmediate emScenarioD (some evA)).1 "B" =
      statCount emScenarioD "B" ∧
    statCount (processEvents emScenarioD 1).1 "A" =
      statCount emScenarioD "A" + 1 ∧
    (publishImmediate { emScenarioD with eventFilters := ["B"] }
        (some evA)).2 = [] ∧
    (processEvents { emScenarioD with eventFilters := ["B"] } 1).2.2 = [] := by
  have h := statistics_before_filter emScenarioD evA [evB] "B" rfl rfl
      (by decide)
  have h' := statistics_before_filter { emScenarioD with eventFilters := ["B"] }
      evA [evB] "B" rfl rfl (by decide)
  exact ⟨h.1, h.2.1, h.2.2.2.1,
         h'.2.2.1 (by decide) (by decide),
         h'.2.2.2.2 (by decide) (by decide)⟩

/-- C8: `unsubscribe` answers `true` exactly when the registry held a
subscriber with that id under that type (and it removes every such
subscriber); a second identical call after a successful one answers
`false`; and a list emptied by the removal takes its event-type entry with
it. -/
theorem unsubscribe_spec (em : EventManager) (t id : String)
    (hnd : keysNodup em) :
    ((unsubscribe em t id).2 = true ↔
      ∃ s ∈ (lookupSubs em.subscribers t).getD [], s.subscriberId = id) ∧
    ((unsubscribe em t id).2 = true →
      (unsubscribe (unsubscribe em t id).1 t id).2 = false) ∧
    ((∀ s ∈ (lookupSubs em.subscribers t).getD [], s.subscriberId = id) →
      lookupSubs (unsubscribe em t id).1.subscribers t = none) := by
  refine ⟨?_, ?_, ?_⟩
  · cases hl : lookupSubs em.subscribers t with
    | none => simp [unsubscribe, hl]
    | some subs => simp [unsubscribe, hl, List.any_eq_true]
  · intro h
    cases hl : lookupSubs em.subscribers t with
    | none => rw [unsubscribe_none em t id hl] at h; exact absurd h (by simp)
    | some subs =>
        rw [unsubscribe_found em t id subs hl]
        by_cases hre :
            (subs.filter (fun s => ¬ s.subscriberId = id)).isEmpty = true
        · rw [if_pos hre]
          rw [unsubscribe_none _ t id
            (lookupSubs_eraseSubs_self em.subscribers t hnd)]
        · rw [if_neg hre]
          rw [unsubscribe_found _ t id
            (subs.filter (fun s => ¬ s.subscriberId = id))
            (lookupSubs_setSubs_self em.subscribers t _)]
          simp [List.any_eq_true, List.mem_filter]
  · intro hall
    cases hl : lookupSubs em.subscribers t with
    | none => rw [unsubscribe_none em t id hl]; exact hl
    | some subs =>
        rw [hl] at hall
        have hre : (subs.filter (fun s => ¬ s.subscriberId = id)).isEmpty
            = true := by
          rw [List.isEmpty_iff, List.filter_eq_nil_iff]
          intro a ha
          simpa using hall a ha
        rw [unsubscribe_found em t id subs hl, if_pos hre]
        exact lookupSubs_eraseSubs_self em.subscribers t hnd

def subX : Subscriber := { subscriberId := "X", priority := 5, active := true }

def subY : Subscriber := { subscriberId := "Y", priority := 3, active := true }

/-- Registry with one subscriber under type `"T"`. -/
def emW : EventManager :=
  { subscribers := [("T", [subX])], eventQueue := [], eventCounts := [],
    eventFilters := [], processingEvents := false, maxQueueSize := 1000 }

/-- Registry with two event types. -/
def emW2 : EventManager :=
  { subscribers := [("T", [subX]), ("U", [subY, subX])], eventQueue := [],
    eventCounts := [], eventFilters := [], processingEvents := false,
    maxQueueSize := 1000 }

/-- Witness for C8: on `emW`, unsubscribing `"X"` from `"T"` succeeds, a
second identical call fails, and the emptied `"T"` entry is gone. -/
theorem unsubscribe_spec_witness :
    (unsubscribe emW "T" "X").2 = true ∧
    (unsubscribe (unsubscribe emW "T" "X").1 "T" "X").2 = false ∧
    lookupSubs (unsubscribe emW "T" "X").1.subscribers "T" = none := by
  have h := unsubscribe_spec emW "T" "X" (by decide)
  have hfirst : (unsubscribe emW "T" "X").2 = true :=
    h.1.mpr ⟨subX, by decide, rfl⟩
  exact ⟨hfirst, h.2.1 hfirst, h.2.2 (by decide)⟩

/-- C10: with unique registry keys none of which is the empty string, the
empty-string query totals the per-type counts over all registered event
types; an absent type counts 0; and both the per-type and the total count
ignore the `active` flag (they are invariant under
`setSubscriberActive`). -/
theorem getSubscriberCount_spec (em : EventManager) (t id : String) (b : Bool)
    (hnd : keysNodup em) (hne : "" ∉ em.subscribers.map Prod.fst)
    (ht : t ≠ "") :
    getSubscriberCount em "" =
      ((em.subscribers.map Prod.fst).map
        (fun k => getSubscriberCount em k)).sum ∧
    (lookupSubs em.subscribers t = none → getSubscriberCount em t = 0) ∧
    getSubscriberCount (setSubscriberActive em id b) t =
      getSubscriberCount em t ∧
    getSubscriberCount (setSubscriberActive em id b) "" =
      getSubscriberCount em "" := by
  refine ⟨?_, ?_, ?_, ?_⟩
  · rw [getSubscriberCount, if_pos rfl, List.map_map]
    congr 1
    refine (List.map_congr_left ?_).symm
    intro p hp
    obtain ⟨k, v⟩ := p
    have hk : k ≠ "" := by
      intro h
      exact hne (List.mem_map.mpr ⟨(k, v), hp, h⟩)
    simp only [Function.comp_apply]
    rw [getSubscriberCount, if_neg hk,
        lookupSubs_of_mem_nodup em.subscribers k v hnd hp]
  · intro h
    rw [getSubscriberCount, if_neg ht, h]
  · have hmap := lookupSubs_map_val
        (fun l => l.map (fun s =>
          if s.subscriberId = id then { s with active := b } else s))
        em.subscribers t
    rw [getSubscriberCount, getSubscriberCount, if_neg ht, if_neg ht]
    cases hl : lookupSubs em.subscribers t with
    | none =>
        rw [hl] at hmap
        rw [show lookupSubs (setSubscriberActive em id b).subscribers t =
              none from hmap]
    | some v =>
        rw [hl] at hmap
        rw [show lookupSubs (setSubscriberActive em id b).subscribers t =
              some (v.map (fun s =>
                if s.subscriberId = id then { s with active := b } else s))
              from hmap]
        simp
  · rw [getSubscriberCount, getSubscriberCount, if_pos rfl, if_pos rfl]
    show ((em.subscribers.map _).map _).sum = _
    rw [List.map_map]
    congr 1
    refine List.map_congr_left ?_
    intro p hp
    simp

/-- Witness for C10 on the two-type registry `emW2`. -/
theorem getSubscriberCount_spec_witness :
    getSubscriberCount emW2 "" =
      ((emW2.subscribers.map Prod.fst).map
        (fun k => getSubscriberCount emW2 k)).sum ∧
    getSubscriberCount emW2 "V" = 0 ∧
    getSubscriberCount (setSubscriberActive emW2 "X" false) "V" =
      getSubscriberCount emW2 "V" ∧
    getSubscriberCount (setSubscriberActive emW2 "X" false) "" =
      getSubscriberCount emW2 "" := by
  have h := getSubscriberCount_spec emW2 "V" "X" false (by decide) (by decide)
      (by decide)
  exact ⟨h.1, h.2.1 rfl, h.2.2.1, h.2.2.2⟩

/-- The UI subscriber of the spec's Scenario A, here given priority 5. -/
def subUI : Subscriber := { subscriberId := "UI", priority := 5, active := true }

/-- The Audio subscriber, registered *after* `subUI` with equal priority. -/
def subAudio : Subscriber :=
  { subscriberId := "Audio", priority := 5, active := true }

def evItem : Event := { type := "ItemAcquired" }

/-- Manager whose stored `"ItemAcquired"` list is `[subAudio, subUI]` — a
list the `std::sort` contract permits after registering `subUI` first and
`subAudio` second. -/
def emCex : EventManager :=
  { subscribers := [("ItemAcquired", [subAudio, subUI])], eventQueue := [],
    eventCounts := [], eventFilters := [], processingEvents := false,
    maxQueueSize := 1000 }

/-- C2 counterexample: register `subUI` then `subAudio`, both priority 5,
for one type.  `sortSubscribersByPriority` uses the **unstable**
`std::sort`, whose contract also permits the stored list `[subAudio,
subUI]`; dispatching from that list invokes `subAudio` before `subUI`,
which is not the registration order.  So equal-priority invocation order is
not guaranteed to match registration order. -/
theorem dispatch_insertion_order_cex :
    SubscribeResult [] subUI [subUI] ∧
    SubscribeResult [subUI] subAudio [subAudio, subUI] ∧
    dispatchEvent emCex evItem = [subAudio, subUI] ∧
    [subAudio, subUI] ≠ [subUI, subAudio] := by
  refine ⟨by decide, by decide, rfl, by decide⟩

/-- C2 amended: whenever the stored subscriber list for the event's type is
an output of the `std::sort` contract used by `sortSubscribersByPriority`
(for any pre-sort list `inp`), a dispatch invokes the active subscribers in
non-decreasing priority order; among equal priorities the order is
whichever permutation the unstable sort produced, not necessarily
registration order. -/
theorem dispatch_priority_sorted (em : EventManager) (e : Event)
    (inp : List Subscriber)
    (h : SortContract inp ((lookupSubs em.subscribers e.type).getD [])) :
    (dispatchEvent em e).Pairwise (fun a b => a.priority ≤ b.priority) := by
  by_cases hf : passesFilter em e.type = true
  · rw [dispatchEvent, if_pos hf]
    cases hl : lookupSubs em.subscribers e.type with
    | none => exact List.Pairwise.nil
    | some subs =>
        rw [hl] at h
        exact (h.2).sublist (List.filter_sublist subs)
  · rw [dispatchEvent, if_neg hf]
    exact List.Pairwise.nil

/-- Witness for the amended C2 on `emCex`'s stored (sorted) list. -/
theorem dispatch_priority_sorted_witness :
    (dispatchEvent emCex evItem).Pairwise
      (fun a b => a.priority ≤ b.priority) :=
  dispatch_priority_sorted emCex evItem [subUI, subAudio] (by decide)

def gsExploring : GameState := .mk "Exploring" true none

def gsPause : GameState := .mk "Pause" true none

def gsDialogue : GameState := .mk "Dialogue" true none

/-- A state whose `canTransition()` answers false. -/
def gsLocked : GameState := .mk "Locked" false none

/-- A freshly constructed `StateManager`. -/
def smEmpty : StateManager :=
  { currentState := none, nextState := none, stateStack := [],
    shouldChangeState := false, shouldPushState := false,
    shouldPopState := false, lastStateName := "None" }

def smExploring : StateManager :=
  (setInitialState smEmpty (some gsExploring)).1

def smPushPending : StateManager :=
  pushState smExploring (some gsPause)

def smAfterPush : StateManager :=
  (update smPushPending).1

def smPopPending : StateManager :=
  popState smAfterPush

def smChangePending : StateManager :=
  changeState smExploring (some gsDialogue)

def smLocked : StateManager :=
  (setInitialState smEmpty (some gsLocked)).1

/-- C6: (i) `setInitialState` on an uninitialized manager installs the
state and calls its `enter()` exactly once; (ii) applying a deferred
`pushState` moves the current state onto the stack *without* an `exit()`
call and calls `enter()` exactly once on the overlay as it becomes current;
(iii) applying a deferred `popState` calls `exit()` on the current state,
discards it, and restores the stack top as current with *no* `enter()`
call; (iv) applying a deferred `changeState` exits the old state and calls
`enter()` exactly once on the new one. -/
theorem state_lifecycle_spec :
    (∀ (sm : StateManager) (st : GameState), sm.currentState = none →
      setInitialState sm (some st) =
        ({ sm with currentState := some st, lastStateName := st.name },
         [.enter st.name])) ∧
    (∀ (sm : StateManager) (c st : GameState),
      sm.currentState = some c → sm.nextState = some st →
      sm.shouldChangeState = false → sm.shouldPushState = true →
      sm.shouldPopState = false → st.nextAuto = none →
      update sm =
        ({ sm with currentState := some st, nextState := none,
                   stateStack := c :: sm.stateStack,
                   shouldPushState := false, lastStateName := st.name },
         [.enter st.name])) ∧
    (∀ (sm : StateManager) (c top : GameState) (rest : List GameState),
      sm.currentState = some c → sm.stateStack = top :: rest →
      sm.shouldChangeState = false → sm.shouldPushState = false →
      sm.shouldPopState = true → top.nextAuto = none →
      update sm =
        ({ sm with currentState := some top, stateStack := rest,
                   shouldPopState := false, lastStateName := top.name },
         [.exit c.name])) ∧
    (∀ (sm : StateManager) (c st : GameState),
      sm.currentState = some c → sm.nextState = some st →
      sm.shouldChangeState = true → sm.shouldPushState = false →
      sm.shouldPopState = false → st.nextAuto = none →
      update sm =
        ({ sm with currentState := some st, nextState := none,
                   shouldChangeState := false, lastStateName := st.name },
         [.exit c.name, .enter st.name])) := by
  refine ⟨?_, ?_, ?_, ?_⟩
  · intro sm st hc
    simp [setInitialState, hc]
  · intro sm c st hc hn h1 h2 h3 ha
    simp [update, performStatePush, cleanupCurrentState, changeState,
          h1, h2, h3, hc, hn, ha]
  · intro sm c top rest hc hs h1 h2 h3 ha
    simp [update, performStatePop, cleanupCurrentState, changeState,
          h1, h2, h3, hc, hs, ha]
  · intro sm c st hc hn h1 h2 h3 ha
    simp [update, performStateChange, cleanupCurrentState, changeState,
          h1, h2, h3, hc, hn, ha]

/-- Witness for C6: Scenario B — initialize with Exploring, push Pause,
update, pop, update; plus a deferred change to Dialogue.  Exploring's
`enter` runs exactly once overall, Pause is exited on pop and Exploring is
restored without re-entering. -/
theorem state_lifecycle_spec_witness :
    setInitialState smEmpty (some gsExploring) =
      ({ smEmpty with currentState := some gsExploring,
                      lastStateName := "Exploring" },
       [.enter "Exploring"]) ∧
    update smPushPending =
      ({ smPushPending with currentState := some gsPause, nextState := none,
                            stateStack := [gsExploring],
                            shouldPushState := false,
                            lastStateName := "Pause" },
       [.enter "Pause"]) ∧
    update smPopPending =
      ({ smPopPending with currentState := some gsExploring,
                           stateStack := [], shouldPopState := false,
                           lastStateName := "Exploring" },
       [.exit "Pause"]) ∧
    update smChangePending =
      ({ smChangePending with currentState := some gsDialogue,
                              nextState := none,
                              shouldChangeState := false,
                              lastStateName := "Dialogue" },
       [.exit "Exploring", .enter "Dialogue"]) :=
  ⟨state_lifecycle_spec.1 smEmpty gsExploring rfl,
   state_lifecycle_spec.2.1 smPushPending gsExploring gsPause
     rfl rfl rfl rfl rfl rfl,
   state_lifecycle_spec.2.2.1 smPopPending gsPause gsExploring []
     rfl rfl rfl rfl rfl rfl,
   state_lifecycle_spec.2.2.2 smChangePending gsExploring gsDialogue
     rfl rfl rfl rfl rfl rfl⟩

/-- C7: when the current state's `canTransition()` answers false,
`changeState` with a non-null argument leaves the manager unchanged — no
pending transition is recorded — and after the next `update` the current
state, and hence its name, is unchanged (an auto-transition request from
the state is rejected by the same check). -/
theorem changeState_rejected (sm : StateManager) (c st : GameState)
    (hc : sm.currentState = some c) (hct : c.canTransitionFlag = false)
    (h1 : sm.shouldChangeState = false) (h2 : sm.shouldPushState = false)
    (h3 : sm.shouldPopState = false) :
    changeState sm (some st) = sm ∧
    (update (changeState sm (some st))).1.currentState = some c ∧
    getCurrentStateName (update (changeState sm (some st))).1 = c.name := by
  have hrej : changeState sm (some st) = sm := by
    simp [changeState, hc, hct]
  have hcur : (update sm).1.currentState = some c := by
    cases ha : c.nextAuto with
    | none => simp [update, h1, h2, h3, hc, ha]
    | some na => simp [update, h1, h2, h3, hc, ha, changeState, hct]
  refine ⟨hrej, ?_, ?_⟩
  · rw [hrej]
    exact hcur
  · rw [hrej]
    simp [getCurrentStateName, hcur]

/-- Witness for C7: a manager in the non-transitionable `"Locked"` state
rejects a change to Pause and is unchanged after `update`. -/
theorem changeState_rejected_witness :
    changeState smLocked (some gsPause) = smLocked ∧
    (update (changeState smLocked (some gsPause))).1.currentState =
      some gsLocked ∧
    getCurrentStateName (update (changeState smLocked (some gsPause))).1 =
      "Locked" :=
  changeState_rejected smLocked gsLocked gsPause rfl rfl rfl rfl rfl

end TimeArtifacts
